import Mathlib

/-!
Verification model of the usage-record persistence and aggregation engine of
CLIProxyAPI (QuantumSpring fork): a shallow embedding of
`internal/persistence/sqlite.go` (the SQLite record store), the persistence
plugin (write buffer / flush controller) and the shared data types
(`UsageRecord`, `QueryFilter`, aggregate metrics).

Modelling conventions:
* The SQLite `usage_records` table is a list of `StoredRow`s.  The store
  keeps the event timestamp as TEXT in the layout `"2006-01-02 15:04:05"`
  (Go reference layout, i.e. `YYYY-MM-DD HH:MM:SS`), which we model as a
  second-precision `DateTime`.  Because that layout is zero padded, SQLite's
  TEXT comparison of two such strings coincides with the lexicographic
  comparison of the six numeric fields, which is how `DateTime.Le`/`Lt`
  are defined.
* A Go `time.Time` is modelled as `GoTime`: the wall-clock reading
  (second precision) plus the sub-second nanoseconds and the zone offset.
  `Format("2006-01-02 15:04:05")` keeps the wall clock and drops the rest;
  `time.Parse` of such a string yields a UTC time with zero nanoseconds.
* Fallible SQL steps (`BeginTx`, `Prepare`, per-statement `Exec`, `Commit`)
  are driven by an explicit failure environment `DBEnv`; the row `id` and
  `created_at` columns are store-assigned bookkeeping no claim touches and
  are omitted from the row model.
-/

namespace CLIProxy

/-- A wall-clock date-time at second precision, exactly the information the
TEXT timestamp column `"YYYY-MM-DD HH:MM:SS"` carries. -/
@[ext]
structure DateTime where
  year : Nat
  month : Nat
  day : Nat
  hour : Nat
  minute : Nat
  second : Nat
deriving DecidableEq, Repr

/-- Strict order on `DateTime`: lexicographic on the six fields, which for the
zero-padded storage layout agrees with SQLite's TEXT comparison `<`. -/
def DateTime.Lt (a b : DateTime) : Prop :=
  a.year < b.year ∨ (a.year = b.year ∧
    (a.month < b.month ∨ (a.month = b.month ∧
      (a.day < b.day ∨ (a.day = b.day ∧
        (a.hour < b.hour ∨ (a.hour = b.hour ∧
          (a.minute < b.minute ∨ (a.minute = b.minute ∧
            a.second < b.second)))))))))

/-- Non-strict order on `DateTime`, agreeing with SQLite's TEXT `<=` on the
stored layout. -/
def DateTime.Le (a b : DateTime) : Prop :=
  a.year < b.year ∨ (a.year = b.year ∧
    (a.month < b.month ∨ (a.month = b.month ∧
      (a.day < b.day ∨ (a.day = b.day ∧
        (a.hour < b.hour ∨ (a.hour = b.hour ∧
          (a.minute < b.minute ∨ (a.minute = b.minute ∧
            a.second ≤ b.second)))))))))

instance (a b : DateTime) : Decidable (DateTime.Lt a b) := by
  unfold DateTime.Lt; exact inferInstance

instance (a b : DateTime) : Decidable (DateTime.Le a b) := by
  unfold DateTime.Le; exact inferInstance

theorem DateTime.le_refl (a : DateTime) : DateTime.Le a a := by
  unfold DateTime.Le; omega

theorem DateTime.le_trans {a b c : DateTime} (h₁ : DateTime.Le a b)
    (h₂ : DateTime.Le b c) : DateTime.Le a c := by
  unfold DateTime.Le at *; omega

theorem DateTime.le_total (a b : DateTime) :
    DateTime.Le a b ∨ DateTime.Le b a := by
  unfold DateTime.Le; omega

theorem DateTime.not_lt_iff_le {a b : DateTime} :
    ¬ DateTime.Lt a b ↔ DateTime.Le b a := by
  unfold DateTime.Lt DateTime.Le; omega

/-- A Go `time.Time`: the wall-clock fields in the time's own zone, the
sub-second nanoseconds, and the zone offset from UTC in minutes. -/
@[ext]
structure GoTime where
  wall : DateTime
  nsec : Nat
  offsetMinutes : Int
deriving DecidableEq, Repr

/-- `t.Format("2006-01-02 15:04:05")`: renders the wall clock at second
precision, discarding nanoseconds and zone information. -/
def GoTime.format (t : GoTime) : DateTime := t.wall

/-- `time.Parse("2006-01-02 15:04:05", s)` on a stored timestamp string:
yields the parsed wall clock in UTC with zero nanoseconds. -/
def parseStoredTimestamp (d : DateTime) : GoTime := ⟨d, 0, 0⟩

/-- The zero `time.Time` (January 1, year 1, 00:00:00 UTC), what Go's
`t.IsZero()` tests for. -/
def GoTime.zero : GoTime := ⟨⟨1, 1, 1, 0, 0, 0⟩, 0, 0⟩

/-- Go's `t.IsZero()`. -/
def GoTime.isZero (t : GoTime) : Prop := t = GoTime.zero

instance (t : GoTime) : Decidable t.isZero := by
  unfold GoTime.isZero; exact inferInstance

/-- `persistence.UsageRecord`: a single API request record as handed to the
store (the store-assigned `ID`/`CreatedAt` bookkeeping columns are omitted;
no claim concerns them). -/
@[ext]
structure UsageRecord where
  Timestamp : GoTime
  RequestID : String
  APIKey : String
  Source : String
  AuthID : String
  Provider : String
  Model : String
  PromptTokens : Int
  CompletionTokens : Int
  ReasoningTokens : Int
  CachedTokens : Int
  TotalTokens : Int
  Status : Int
  Failed : Bool
  LatencyMs : Int
deriving DecidableEq, Repr

/-- One row of the `usage_records` table: the same payload with the
timestamp held as the stored TEXT value (second-precision `DateTime`). -/
@[ext]
structure StoredRow where
  timestamp : DateTime
  request_id : String
  api_key : String
  source : String
  auth_id : String
  provider : String
  model : String
  prompt_tokens : Int
  completion_tokens : Int
  reasoning_tokens : Int
  cached_tokens : Int
  total_tokens : Int
  status : Int
  failed : Bool
  latency_ms : Int
deriving DecidableEq, Repr

/-- The row an `INSERT` writes for a record: every field as given, the
timestamp rendered by `record.Timestamp.Format("2006-01-02 15:04:05")`. -/
def rowOfRecord (r : UsageRecord) : StoredRow :=
  { timestamp := r.Timestamp.format
    request_id := r.RequestID
    api_key := r.APIKey
    source := r.Source
    auth_id := r.AuthID
    provider := r.Provider
    model := r.Model
    prompt_tokens := r.PromptTokens
    completion_tokens := r.CompletionTokens
    reasoning_tokens := r.ReasoningTokens
    cached_tokens := r.CachedTokens
    total_tokens := r.TotalTokens
    status := r.Status
    failed := r.Failed
    latency_ms := r.LatencyMs }

/-- The record `Query`'s row scan produces from a stored row: every column as
stored, the timestamp re-parsed with `time.Parse("2006-01-02 15:04:05", ...)`. -/
def recordOfRow (row : StoredRow) : UsageRecord :=
  { Timestamp := parseStoredTimestamp row.timestamp
    RequestID := row.request_id
    APIKey := row.api_key
    Source := row.source
    AuthID := row.auth_id
    Provider := row.provider
    Model := row.model
    PromptTokens := row.prompt_tokens
    CompletionTokens := row.completion_tokens
    ReasoningTokens := row.reasoning_tokens
    CachedTokens := row.cached_tokens
    TotalTokens := row.total_tokens
    Status := row.status
    Failed := row.failed
    LatencyMs := row.latency_ms }

/-- `SQLiteStorage`: the `usage_records` table in insertion order. -/
@[ext]
structure SQLiteStorage where
  rows : List StoredRow
deriving DecidableEq, Repr

/-- Failure environment for the fallible SQL steps a call may perform. -/
structure DBEnv where
  beginFails : Bool := false
  prepareFails : Bool := false
  commitFails : Bool := false
  execFails : UsageRecord → Bool := fun _ => false

/-- `Insert`: appends one row, formatting the timestamp at second
precision (the success path of the single-row `INSERT`). -/
def SQLiteStorage.Insert (s : SQLiteStorage) (record : UsageRecord) :
    SQLiteStorage :=
  ⟨s.rows ++ [rowOfRecord record]⟩

/-- The statement loop of `InsertBatch`, applied to the transaction-local
table state: executes the prepared `INSERT` for each record in order and
aborts at the first failing statement. -/
def insertLoop (env : DBEnv) : List StoredRow → List UsageRecord →
    Except String (List StoredRow)
  | txRows, [] => .ok txRows
  | txRows, record :: rest =>
      if env.execFails record then .error "failed to insert record"
      else insertLoop env (txRows ++ [rowOfRecord record]) rest

/-- `InsertBatch`: inserts the records in one transaction.  An empty batch
returns immediately; otherwise `BeginTx`, `Prepare`, the statement loop and
`Commit` run in order, with the deferred `Rollback` discarding the
transaction-local state on any failure.  Returns the error (if any) and the
resulting store. -/
def SQLiteStorage.InsertBatch (s : SQLiteStorage) (records : List UsageRecord)
    (env : DBEnv) : Option String × SQLiteStorage :=
  if records.isEmpty then (none, s)
  else if env.beginFails then (some "failed to begin transaction", s)
  else if env.prepareFails then (some "failed to prepare statement", s)
  else
    match insertLoop env s.rows records with
    | .error e => (some e, s)
    | .ok txRows =>
        if env.commitFails then (some "failed to commit transaction", s)
        else (none, ⟨txRows⟩)

/-- `Cleanup`: `DELETE FROM usage_records WHERE timestamp < ?` with the
cutoff formatted at second precision; returns the affected-row count and the
remaining table. -/
def SQLiteStorage.Cleanup (s : SQLiteStorage) (olderThan : GoTime) :
    Int × SQLiteStorage :=
  let cutoff := olderThan.format
  let deleted := s.rows.filter (fun row => decide (DateTime.Lt row.timestamp cutoff))
  let remaining := s.rows.filter (fun row => ¬ DateTime.Lt row.timestamp cutoff)
  ((deleted.length : Int), ⟨remaining⟩)

/-- `GetRecordCount`: `SELECT COUNT(*) FROM usage_records`. -/
def SQLiteStorage.GetRecordCount (s : SQLiteStorage) : Int :=
  (s.rows.length : Int)

/-- `persistence.QueryFilter`: the public filter type.  `Offset` is part of
the type but, as in the source, is never consulted by `Query`. -/
structure QueryFilter where
  From : Option GoTime := none
  To : Option GoTime := none
  Model : String := ""
  APIKey : String := ""
  Provider : String := ""
  Failed : Option Bool := none
  Limit : Int := 0
  Offset : Int := 0

/-- The `WHERE` clause `Query` assembles: one conjunct per filter field, each
added only when the field is set (`From`/`To` non-nil and non-zero, strings
non-empty, `Failed` non-nil), compared against the stored TEXT timestamp. -/
def rowMatches (f : QueryFilter) (row : StoredRow) : Bool :=
  (match f.From with
   | some t => if ¬ t.isZero then decide (DateTime.Le t.format row.timestamp) else true
   | none => true) &&
  (match f.To with
   | some t => if ¬ t.isZero then decide (DateTime.Le row.timestamp t.format) else true
   | none => true) &&
  (if f.Provider ≠ "" then row.provider = f.Provider else true) &&
  (if f.Model ≠ "" then row.model = f.Model else true) &&
  (if f.APIKey ≠ "" then row.api_key = f.APIKey else true) &&
  (match f.Failed with
   | some b => row.failed = b
   | none => true)

/-- `ORDER BY timestamp DESC` as a relation on rows. -/
def tsDesc (a b : StoredRow) : Prop := DateTime.Le b.timestamp a.timestamp

instance : DecidableRel tsDesc := fun a b => by
  unfold tsDesc; exact inferInstance

instance : IsTotal StoredRow tsDesc :=
  ⟨fun a b => (DateTime.le_total b.timestamp a.timestamp).elim .inl .inr⟩

instance : IsTrans StoredRow tsDesc :=
  ⟨fun _ _ _ h₁ h₂ => DateTime.le_trans h₂ h₁⟩

/-- `Query`: selects the rows matching the assembled `WHERE` clause, orders
them newest-first (`ORDER BY timestamp DESC`), applies `LIMIT` when
`filter.Limit > 0`, and scans each row back into a `UsageRecord`. -/
def SQLiteStorage.Query (s : SQLiteStorage) (filter : QueryFilter) :
    List UsageRecord :=
  let selected := s.rows.filter (rowMatches filter)
  let ordered := selected.insertionSort tsDesc
  let limited := if filter.Limit > 0 then ordered.take filter.Limit.toNat else ordered
  limited.map recordOfRow

/-- `timestamp >= from AND timestamp <= to` with both bounds formatted at
second precision — the window clause shared by the aggregate queries. -/
def inWindow (fromT toT : DateTime) (row : StoredRow) : Bool :=
  decide (DateTime.Le fromT row.timestamp) && decide (DateTime.Le row.timestamp toT)

/-- `persistence.TotalMetrics` (the SQLite `AVG` real is modelled exactly as
a rational). -/
structure TotalMetrics where
  Requests : Int
  Tokens : Int
  PromptTokens : Int
  CompletionTokens : Int
  ReasoningTokens : Int
  CachedTokens : Int
  FailedRequests : Int
  SuccessRequests : Int
  AvgLatencyMs : ℚ
deriving DecidableEq, Repr

/-- Accumulator of the single-pass aggregate scan the SQL engine performs
for `GetTotals`. -/
structure TotalsAcc where
  count : Int := 0
  tok : Int := 0
  prompt : Int := 0
  completion : Int := 0
  reasoning : Int := 0
  cached : Int := 0
  failedCount : Int := 0
  successCount : Int := 0
  latSum : ℚ := 0

/-- One aggregation step of the `GetTotals` scan: `COUNT(*)`, the five token
`SUM`s, the two `CASE WHEN failed` counters, and the latency sum feeding
`AVG(latency_ms)`. -/
def totalsStep (acc : TotalsAcc) (row : StoredRow) : TotalsAcc :=
  { count := acc.count + 1
    tok := acc.tok + row.total_tokens
    prompt := acc.prompt + row.prompt_tokens
    completion := acc.completion + row.completion_tokens
    reasoning := acc.reasoning + row.reasoning_tokens
    cached := acc.cached + row.cached_tokens
    failedCount := acc.failedCount + (if row.failed then 1 else 0)
    successCount := acc.successCount + (if row.failed then 0 else 1)
    latSum := acc.latSum + (row.latency_ms : ℚ) }

/-- `GetTotals`: the aggregate `SELECT` over the rows in
`timestamp >= from AND timestamp <= to`; `COALESCE(..., 0)` and the
NULL `AVG` over an empty window both yield zeros. -/
def SQLiteStorage.GetTotals (s : SQLiteStorage) (fromT toT : GoTime) :
    TotalMetrics :=
  let w := s.rows.filter (inWindow fromT.format toT.format)
  let acc := w.foldl totalsStep {}
  { Requests := acc.count
    Tokens := acc.tok
    PromptTokens := acc.prompt
    CompletionTokens := acc.completion
    ReasoningTokens := acc.reasoning
    CachedTokens := acc.cached
    FailedRequests := acc.failedCount
    SuccessRequests := acc.successCount
    AvgLatencyMs := if acc.count = 0 then 0 else acc.latSum / (acc.count : ℚ) }

/-- `persistence.ModelMetrics`. -/
structure ModelMetrics where
  Model : String
  Requests : Int
  Tokens : Int
  PromptTokens : Int
  CompletionTokens : Int
  AvgLatencyMs : ℚ
  FailedRequests : Int
deriving DecidableEq, Repr

/-- Accumulator of the per-group aggregate scan shared by `GetByModel` and
`GetTimeseries`. -/
structure GroupAcc where
  count : Int := 0
  tok : Int := 0
  prompt : Int := 0
  completion : Int := 0
  failedCount : Int := 0
  latSum : ℚ := 0

/-- One aggregation step of a `GROUP BY` group scan: `COUNT(*)`, the token
`SUM`s, the `CASE WHEN failed` counter, and the latency sum feeding `AVG`. -/
def groupStep (acc : GroupAcc) (row : StoredRow) : GroupAcc :=
  { count := acc.count + 1
    tok := acc.tok + row.total_tokens
    prompt := acc.prompt + row.prompt_tokens
    completion := acc.completion + row.completion_tokens
    failedCount := acc.failedCount + (if row.failed then 1 else 0)
    latSum := acc.latSum + (row.latency_ms : ℚ) }

/-- The aggregate row `GetByModel` emits for one model's group. -/
def modelAggRow (m : String) (group : List StoredRow) : ModelMetrics :=
  let acc := group.foldl groupStep {}
  { Model := m
    Requests := acc.count
    Tokens := acc.tok
    PromptTokens := acc.prompt
    CompletionTokens := acc.completion
    AvgLatencyMs := if acc.count = 0 then 0 else acc.latSum / (acc.count : ℚ)
    FailedRequests := acc.failedCount }

/-- `ORDER BY total_tokens DESC` as a relation on model aggregate rows. -/
def tokensDesc (a b : ModelMetrics) : Prop := b.Tokens ≤ a.Tokens

instance : DecidableRel tokensDesc := fun a b => by
  unfold tokensDesc; exact inferInstance

instance : IsTotal ModelMetrics tokensDesc :=
  ⟨fun a b => (Int.le_total b.Tokens a.Tokens).elim .inl .inr⟩

instance : IsTrans ModelMetrics tokensDesc :=
  ⟨fun _ _ _ h₁ h₂ => le_trans h₂ h₁⟩

/-- `GetByModel`: the aggregate `SELECT ... GROUP BY model ORDER BY
total_tokens DESC` over the rows in the window: one aggregate row per
distinct model value. -/
def SQLiteStorage.GetByModel (s : SQLiteStorage) (fromT toT : GoTime) :
    List ModelMetrics :=
  let w := s.rows.filter (inWindow fromT.format toT.format)
  let keys := (w.map (fun row => row.model)).dedup
  let grouped := keys.map (fun m => modelAggRow m (w.filter (fun row => row.model = m)))
  grouped.insertionSort tokensDesc

/-! ### Calendar arithmetic for the week-granularity bucket key

SQLite's `strftime('%W', t)` is the C `strftime` `%W`: the week number
00–53 with Monday as the first day of the week — all days of the year
before the first Monday belong to week 0, so
`%W = (dayOfYear + 7 - mondayWeekday) / 7` with a 0-based day of year and
0 = Monday. -/

/-- Gregorian leap-year test. -/
def isLeap (y : Nat) : Bool :=
  y % 4 = 0 && (y % 100 ≠ 0 || y % 400 = 0)

/-- Days in the months before month `m` of a non-leap year. -/
def daysBeforeMonth (m : Nat) : Nat :=
  match m with
  | 1 => 0 | 2 => 31 | 3 => 59 | 4 => 90 | 5 => 120 | 6 => 151
  | 7 => 181 | 8 => 212 | 9 => 243 | 10 => 273 | 11 => 304 | 12 => 334
  | _ => 0

/-- 0-based day of the year of a calendar date. -/
def dayOfYear0 (d : DateTime) : Nat :=
  daysBeforeMonth d.month +
    (if 3 ≤ d.month ∧ isLeap d.year then 1 else 0) + (d.day - 1)

/-- Day count of a civil date from the proleptic-Gregorian era origin
0000-03-01 (the standard days-from-civil computation, restricted to the
years ≥ 1 the store ever sees). -/
def rataDays (d : DateTime) : Nat :=
  let y := if d.month ≤ 2 then d.year - 1 else d.year
  let era := y / 400
  let yoe := y % 400
  let mp := (d.month + 9) % 12
  let doy := (153 * mp + 2) / 5 + (d.day - 1)
  let doe := yoe * 365 + yoe / 4 - yoe / 100 + doy
  era * 146097 + doe

/-- Weekday of a calendar date with 0 = Monday (the era origin 0000-03-01
was a Wednesday, and 1970-01-01, 719468 era days later, a Thursday, so the
anchor offset is 2). -/
def mondayWeekday (d : DateTime) : Nat :=
  (rataDays d + 2) % 7

/-- SQLite `strftime('%W', t)`: Monday-first week number 00–53. -/
def strftimeW (d : DateTime) : Nat :=
  (dayOfYear0 d + 7 - mondayWeekday d) / 7

/-- The `'%Y-W%W'` bucket key of a timestamp, as the (year, week-number)
pair its zero-padded string rendering `"YYYY-Wnn"` denotes. -/
def weekKey (d : DateTime) : Nat × Nat :=
  (d.year, strftimeW d)

/-- `ORDER BY bucket ASC` on the `"YYYY-Wnn"` key strings: for zero-padded
four-digit years this is the lexicographic order on the pairs. -/
def weekKeyAsc (a b : Nat × Nat) : Prop :=
  a.1 < b.1 ∨ (a.1 = b.1 ∧ a.2 ≤ b.2)

instance : DecidableRel weekKeyAsc := fun a b => by
  unfold weekKeyAsc; exact inferInstance

instance : IsTotal (Nat × Nat) weekKeyAsc :=
  ⟨fun a b => by unfold weekKeyAsc; omega⟩

instance : IsTrans (Nat × Nat) weekKeyAsc :=
  ⟨fun a b c h₁ h₂ => by unfold weekKeyAsc at *; omega⟩

/-- `time.Parse("2006-W02", "YYYY-Wnn")` as `GetTimeseries` performs on a
week bucket key.  In a Go layout `2006` is the year and `02` is the **day
of month** (Go has no week-number layout element), so the week number is
consumed as a day, the absent month defaults to January, and the result is
January `nn` of the year, midnight UTC; a day outside 1–31 is a parse error
whose discarded failure leaves the zero time. -/
def goParseWeekBucket (k : Nat × Nat) : GoTime :=
  if 1 ≤ k.2 ∧ k.2 ≤ 31 then ⟨⟨k.1, 1, k.2, 0, 0, 0⟩, 0, 0⟩
  else GoTime.zero

/-- `persistence.TimeseriesPoint`. -/
structure TimeseriesPoint where
  BucketStart : GoTime
  Requests : Int
  Tokens : Int
  PromptTokens : Int
  CompletionTokens : Int
  AvgLatencyMs : ℚ
  FailedRequests : Int
deriving DecidableEq, Repr

/-- The aggregate point `GetTimeseries` emits for one week bucket. -/
def weekBucketRow (k : Nat × Nat) (group : List StoredRow) : TimeseriesPoint :=
  let acc := group.foldl groupStep {}
  { BucketStart := goParseWeekBucket k
    Requests := acc.count
    Tokens := acc.tok
    PromptTokens := acc.prompt
    CompletionTokens := acc.completion
    AvgLatencyMs := if acc.count = 0 then 0 else acc.latSum / (acc.count : ℚ)
    FailedRequests := acc.failedCount }

/-- `GetTimeseries` specialised to `interval = "week"`: groups the rows in
the window by the `strftime('%Y-W%W', timestamp)` bucket key, orders the
buckets ascending, and parses each key back into `BucketStart` with
`time.Parse("2006-W02", ...)`. -/
def SQLiteStorage.GetTimeseriesWeek (s : SQLiteStorage) (fromT toT : GoTime) :
    List TimeseriesPoint :=
  let w := s.rows.filter (inWindow fromT.format toT.format)
  let keys := (w.map (fun row => weekKey row.timestamp)).dedup
  let ordered := keys.insertionSort weekKeyAsc
  ordered.map (fun k => weekBucketRow k (w.filter (fun row => weekKey row.timestamp = k)))

/-! ### The persistence plugin (write buffer / flush controller)

`PersistencePlugin` buffers records under a mutex and flushes them to the
storage.  The model is the sequential view of the mutex-serialised state:
the buffer, the stop flag, and the storage.  `Initialize` always constructs
the plugin with a live storage backend, so the `p == nil || p.storage == nil`
early return of `HandleUsage` (a never-constructed degenerate plugin) is not
modelled.  The detached goroutine of `flushLocked` writes its batch with the
error only logged; sequentially that is the batch applied to the storage
with the error discarded. -/

/-- `PersistencePlugin`: buffer, configured flush threshold, stop flag, and
the storage backend (the flush timer is a scheduling device with no
state of its own beyond `stopCh`, which `stopped` subsumes sequentially). -/
@[ext]
structure PersistencePlugin where
  storage : SQLiteStorage
  buffer : List UsageRecord
  bufferSize : Nat
  stopped : Bool
deriving DecidableEq, Repr

/-- `flushLocked`: drains the buffer and hands the batch to
`storage.InsertBatch` on a detached goroutine, dropping (logging) any
error. -/
def PersistencePlugin.flushLocked (p : PersistencePlugin) (env : DBEnv) :
    PersistencePlugin :=
  if p.buffer.isEmpty then p
  else
    { p with
        buffer := []
        storage := (p.storage.InsertBatch p.buffer env).2 }

/-- `HandleUsage` (the submit path): a no-op once stopped; otherwise appends
the record to the buffer and flushes when the buffer has reached the
configured size. -/
def PersistencePlugin.HandleUsage (p : PersistencePlugin)
    (record : UsageRecord) (env : DBEnv) : PersistencePlugin :=
  if p.stopped then p
  else
    let p' := { p with buffer := p.buffer ++ [record] }
    if p'.buffer.length ≥ p.bufferSize then p'.flushLocked env else p'

/-- `Flush`: synchronously writes the buffered records as one batch and
propagates the batch error; the buffer is cleared regardless. -/
def PersistencePlugin.Flush (p : PersistencePlugin) (env : DBEnv) :
    Option String × PersistencePlugin :=
  if p.buffer.isEmpty then (none, p)
  else
    let res := p.storage.InsertBatch p.buffer env
    (res.1, { p with buffer := [], storage := res.2 })

/-- `Stop`: returns immediately when already stopped; otherwise sets the
stop flag, closes the stop channel, and performs one final synchronous
`Flush` whose error it returns. -/
def PersistencePlugin.Stop (p : PersistencePlugin) (env : DBEnv) :
    Option String × PersistencePlugin :=
  if p.stopped then (none, p)
  else PersistencePlugin.Flush { p with stopped := true } env

/-! ### Concrete sample data used by the witnesses -/

/-- A stored row with the fields the examples vary; the rest fixed. -/
def sampleRow (ts : DateTime) (mdl : String) (tok : Int) (fl : Bool)
    (lat : Int) : StoredRow :=
  { timestamp := ts
    request_id := ""
    api_key := "sk-test"
    source := ""
    auth_id := ""
    provider := "openai"
    model := mdl
    prompt_tokens := 0
    completion_tokens := 0
    reasoning_tokens := 0
    cached_tokens := 0
    total_tokens := tok
    status := 200
    failed := fl
    latency_ms := lat }

/-- A usage record with the fields the examples vary; the rest fixed. -/
def sampleRecord (ts : GoTime) (mdl : String) (tok : Int) (fl : Bool)
    (lat : Int) : UsageRecord :=
  { Timestamp := ts
    RequestID := ""
    APIKey := "sk-test"
    Source := ""
    AuthID := ""
    Provider := "openai"
    Model := mdl
    PromptTokens := 0
    CompletionTokens := 0
    ReasoningTokens := 0
    CachedTokens := 0
    TotalTokens := tok
    Status := 200
    Failed := fl
    LatencyMs := lat }

/-- The window start 2025-01-01 00:00:00 used by the sample queries. -/
def winFrom : GoTime := ⟨⟨2025, 1, 1, 0, 0, 0⟩, 0, 0⟩

/-- The window end 2025-12-31 00:00:00 used by the sample queries. -/
def winTo : GoTime := ⟨⟨2025, 12, 31, 0, 0, 0⟩, 0, 0⟩

/-- C1's failing input: one record whose event timestamp 2025-01-20 00:00:00
is a Monday, so it is the calendar start of its own (Monday-first) week. -/
def c1store : SQLiteStorage :=
  ⟨[sampleRow ⟨2025, 1, 20, 0, 0, 0⟩ "gpt-4" 3 false 10]⟩

/-- The concrete store of §8's `totals` example: token sums 150/300/75 with
failed flags false/false/true. -/
def c4store : SQLiteStorage :=
  ⟨[sampleRow ⟨2025, 3, 1, 10, 0, 0⟩ "gpt-4" 150 false 10,
    sampleRow ⟨2025, 3, 1, 11, 0, 0⟩ "gpt-4" 300 false 20,
    sampleRow ⟨2025, 3, 1, 12, 0, 0⟩ "claude" 75 true 30]⟩

/-- The concrete store of §8's `byModel` example: gpt-4 tokens 100 and 200,
claude tokens 150. -/
def c6store : SQLiteStorage :=
  ⟨[sampleRow ⟨2025, 3, 1, 10, 0, 0⟩ "gpt-4" 100 false 10,
    sampleRow ⟨2025, 3, 1, 11, 0, 0⟩ "gpt-4" 200 false 20,
    sampleRow ⟨2025, 3, 1, 12, 0, 0⟩ "claude" 150 false 30]⟩

/-- The concrete store of §8's `cleanup` example: one record 100 days before
the 2025-06-01 reference instant and one record 1 hour before it. -/
def c3store : SQLiteStorage :=
  ⟨[sampleRow ⟨2025, 2, 21, 12, 0, 0⟩ "gpt-4" 10 false 10,
    sampleRow ⟨2025, 6, 1, 11, 0, 0⟩ "gpt-4" 20 false 20]⟩

/-- The `cutoff = now - 90 days` of §8's `cleanup` example (reference
instant 2025-06-01 12:00:00). -/
def c3cutoff : GoTime := ⟨⟨2025, 3, 3, 12, 0, 0⟩, 0, 0⟩

/-- Modelled from the spec's words (§4.2 `byModel`): the aggregate row the
spec describes for model `m` over the window rows `w` — request count,
token sums, mean latency and failed count of `m`'s group, written with
plain `length`/`sum`/`countP` rather than the engine's scan. -/
def modelMetricsSpec (w : List StoredRow) (m : String) : ModelMetrics :=
  { Model := m
    Requests := ((w.filter (fun row => row.model = m)).length : Int)
    Tokens := ((w.filter (fun row => row.model = m)).map
      (fun row => row.total_tokens)).sum
    PromptTokens := ((w.filter (fun row => row.model = m)).map
      (fun row => row.prompt_tokens)).sum
    CompletionTokens := ((w.filter (fun row => row.model = m)).map
      (fun row => row.completion_tokens)).sum
    AvgLatencyMs :=
      if (w.filter (fun row => row.model = m)).length = 0 then 0
      else ((((w.filter (fun row => row.model = m)).map
          (fun row => row.latency_ms)).sum : Int) : ℚ) /
        ((w.filter (fun row => row.model = m)).length : ℚ)
    FailedRequests := ((w.filter (fun row => row.model = m)).countP
      (fun row => row.failed) : Int) }

/-! ## Theorems -/

/-- The state `Stop` leaves behind always carries a raised stop flag. -/
theorem stopped_after_Stop (p : PersistencePlugin) (env : DBEnv) :
    ((p.Stop env).2).stopped = true := by
  unfold PersistencePlugin.Stop PersistencePlugin.Flush
  by_cases h : p.stopped
  · simp [h]
  · simp [h]
    split <;> rfl

/-- `HandleUsage` on a stopped plugin returns the state unchanged. -/
theorem HandleUsage_of_stopped (p : PersistencePlugin) (record : UsageRecord)
    (env : DBEnv) (h : p.stopped = true) : p.HandleUsage record env = p := by
  unfold PersistencePlugin.HandleUsage
  simp [h]

/-- `Stop` on a stopped plugin returns no error and the state unchanged. -/
theorem Stop_of_stopped (p : PersistencePlugin) (env : DBEnv)
    (h : p.stopped = true) : p.Stop env = (none, p) := by
  unfold PersistencePlugin.Stop
  simp [h]

/-- Claim C7: after the flush controller has been shut down (`Stop` has
returned), every subsequent submit (`HandleUsage`) is a no-op: it leaves the
plugin state — in particular the in-memory buffer and the storage, hence the
store's record count — unchanged, for every record submitted, every failure
environment, and every plugin state the prior history produced. -/
theorem handleUsage_noop_after_stop (p : PersistencePlugin) (env env₂ : DBEnv)
    (record : UsageRecord) :
    ((p.Stop env).2).HandleUsage record env₂ = (p.Stop env).2 :=
  HandleUsage_of_stopped _ _ _ (stopped_after_Stop p env)

/-- Claim C8: `Stop` is idempotent: whatever state a first `Stop` left
behind, a second `Stop` returns no error and leaves the plugin state — so
also the buffer and the storage, hence no additional flush — unchanged. -/
theorem stop_idempotent (p : PersistencePlugin) (env env₂ : DBEnv) :
    ((p.Stop env).2).Stop env₂ = (none, (p.Stop env).2) :=
  Stop_of_stopped _ _ (stopped_after_Stop p env)

/-- Claim C9: the `Offset` field of `QueryFilter` has no effect — `Query`
returns the same result list for any two values of `Offset`. -/
theorem query_ignores_offset (s : SQLiteStorage) (f : QueryFilter)
    (o₁ o₂ : Int) :
    s.Query { f with Offset := o₁ } = s.Query { f with Offset := o₂ } := by
  cases f
  rfl

/-- A successful `insertLoop` run appends exactly the batch's rows, in
order, to the transaction-local table state. -/
theorem insertLoop_ok (env : DBEnv) (records : List UsageRecord) :
    ∀ acc out : List StoredRow, insertLoop env acc records = .ok out →
      out = acc ++ records.map rowOfRecord := by
  induction records with
  | nil =>
      intro acc out h
      simp only [insertLoop] at h
      cases h
      simp
  | cons r rest ih =>
      intro acc out h
      simp only [insertLoop] at h
      by_cases hf : env.execFails r
      · simp [hf] at h
      · simp only [hf, if_false, Bool.false_eq_true] at h
        simpa using ih _ _ h

/-- Claim C2: `InsertBatch` is atomic on every non-empty batch — either it
reports no error and every record of the batch has become a persisted row
appended in order, or it reports an error and the store is unchanged. -/
theorem insertBatch_atomic (s : SQLiteStorage) (records : List UsageRecord)
    (env : DBEnv) (h : records ≠ []) :
    ((s.InsertBatch records env).1 = none ∧
      (s.InsertBatch records env).2.rows = s.rows ++ records.map rowOfRecord) ∨
    ((s.InsertBatch records env).1 ≠ none ∧
      (s.InsertBatch records env).2 = s) := by
  unfold SQLiteStorage.InsertBatch
  have hne : records.isEmpty = false := by
    cases records with
    | nil => exact absurd rfl h
    | cons a l => rfl
  rw [hne]
  by_cases hb : env.beginFails
  · right; simp [hb]
  · by_cases hp : env.prepareFails
    · right; simp [hb, hp]
    · simp only [hb, hp, Bool.false_eq_true, if_false]
      cases hloop : insertLoop env s.rows records with
      | error e => right; simp
      | ok tx =>
          by_cases hc : env.commitFails
          · right; simp [hc]
          · left
            simp only [hc, Bool.false_eq_true, if_false]
            exact ⟨by simp, insertLoop_ok env records s.rows tx hloop⟩

/-- The batch of C2's witness: a single sample record. -/
def c2records : List UsageRecord :=
  [sampleRecord winFrom "gpt-4" 5 false 10]

/-- Claim C2, witnessed on a concrete non-empty batch against the empty
store with a non-failing environment. -/
theorem insertBatch_atomic_witness :
    c2records ≠ [] ∧
    ((((⟨[]⟩ : SQLiteStorage).InsertBatch c2records {}).1 = none ∧
      ((⟨[]⟩ : SQLiteStorage).InsertBatch c2records {}).2.rows =
        ([] : List StoredRow) ++ c2records.map rowOfRecord) ∨
    ((((⟨[]⟩ : SQLiteStorage).InsertBatch c2records {}).1 ≠ none ∧
      ((⟨[]⟩ : SQLiteStorage).InsertBatch c2records {}).2 = ⟨[]⟩))) :=
  ⟨by decide, insertBatch_atomic ⟨[]⟩ c2records {} (by decide)⟩

/-- Splitting a list by a Boolean predicate splits its length. -/
theorem length_filter_add_length_filter_not {α : Type} (p : α → Bool)
    (l : List α) :
    (l.filter p).length + (l.filter (fun a => !p a)).length = l.length := by
  induction l with
  | nil => rfl
  | cons a l ih =>
      by_cases h : p a <;> simp [List.filter_cons, h] <;> omega

/-- Claim C3: `Cleanup(olderThan)` deletes exactly the records whose stored
event timestamp is strictly before the cutoff: the surviving rows are an
unchanged-in-order subsequence of the table, none of them is older than the
cutoff, every row not older than the cutoff survives, the returned count is
the number of rows deleted, and with no matching row it returns 0 (the
model's `DELETE` has no error outcome). -/
theorem cleanup_spec (s : SQLiteStorage) (t : GoTime) :
    (s.Cleanup t).2.rows.Sublist s.rows ∧
    (∀ row ∈ (s.Cleanup t).2.rows, ¬ DateTime.Lt row.timestamp t.format) ∧
    (∀ row ∈ s.rows, ¬ DateTime.Lt row.timestamp t.format →
      row ∈ (s.Cleanup t).2.rows) ∧
    (s.Cleanup t).1 + ((s.Cleanup t).2.rows.length : Int) =
      (s.rows.length : Int) ∧
    ((∀ row ∈ s.rows, ¬ DateTime.Lt row.timestamp t.format) →
      (s.Cleanup t).1 = 0) := by
  unfold SQLiteStorage.Cleanup
  refine ⟨List.filter_sublist _, ?_, ?_, ?_, ?_⟩
  · intro row hrow
    have := (List.mem_filter.mp hrow).2
    simpa using this
  · intro row hrow hkeep
    exact List.mem_filter.mpr ⟨hrow, by simpa using hkeep⟩
  · have hsplit := length_filter_add_length_filter_not
      (fun row => decide (DateTime.Lt row.timestamp t.format)) s.rows
    have hcongr :
        s.rows.filter (fun row => !decide (DateTime.Lt row.timestamp t.format)) =
        s.rows.filter (fun row => ¬ DateTime.Lt row.timestamp t.format) := by
      apply List.filter_congr
      intro row _
      simp
    rw [hcongr] at hsplit
    simp only []
    omega
  · intro hall
    have : s.rows.filter
        (fun row => decide (DateTime.Lt row.timestamp t.format)) = [] := by
      apply List.filter_eq_nil_iff.mpr
      intro row hrow
      simpa using hall row hrow
    simp [this]

/-- Claim C3, witnessed on §8's concrete example: one record 100 days old
and one record 1 hour old with a 90-day cutoff — exactly one record is
deleted, one is left, and the theorem instance holds there. -/
theorem cleanup_spec_witness :
    ((c3store.Cleanup c3cutoff).1 = 1 ∧
      (c3store.Cleanup c3cutoff).2.rows.length = 1) ∧
    ((∀ row ∈ c3store.rows, ¬ DateTime.Lt row.timestamp c3cutoff.format) →
      (c3store.Cleanup c3cutoff).1 = 0) :=
  ⟨by decide, (cleanup_spec c3store c3cutoff).2.2.2.2⟩

/-- The `COUNT(*)` column of the `GetTotals` scan counts the scanned rows. -/
theorem totals_foldl_count (l : List StoredRow) (acc : TotalsAcc) :
    (l.foldl totalsStep acc).count = acc.count + l.length := by
  induction l generalizing acc with
  | nil => simp
  | cons r l ih => rw [List.foldl_cons, ih]; simp [totalsStep]; ring

/-- The `SUM(total_tokens)` column of the `GetTotals` scan. -/
theorem totals_foldl_tok (l : List StoredRow) (acc : TotalsAcc) :
    (l.foldl totalsStep acc).tok =
      acc.tok + (l.map (fun row => row.total_tokens)).sum := by
  induction l generalizing acc with
  | nil => simp
  | cons r l ih => rw [List.foldl_cons, ih]; simp [totalsStep]; ring

/-- The `SUM(prompt_tokens)` column of the `GetTotals` scan. -/
theorem totals_foldl_prompt (l : List StoredRow) (acc : TotalsAcc) :
    (l.foldl totalsStep acc).prompt =
      acc.prompt + (l.map (fun row => row.prompt_tokens)).sum := by
  induction l generalizing acc with
  | nil => simp
  | cons r l ih => rw [List.foldl_cons, ih]; simp [totalsStep]; ring

/-- The `SUM(completion_tokens)` column of the `GetTotals` scan. -/
theorem totals_foldl_completion (l : List StoredRow) (acc : TotalsAcc) :
    (l.foldl totalsStep acc).completion =
      acc.completion + (l.map (fun row => row.completion_tokens)).sum := by
  induction l generalizing acc with
  | nil => simp
  | cons r l ih => rw [List.foldl_cons, ih]; simp [totalsStep]; ring

/-- The `SUM(reasoning_tokens)` column of the `GetTotals` scan. -/
theorem totals_foldl_reasoning (l : List StoredRow) (acc : TotalsAcc) :
    (l.foldl totalsStep acc).reasoning =
      acc.reasoning + (l.map (fun row => row.reasoning_tokens)).sum := by
  induction l generalizing acc with
  | nil => simp
  | cons r l ih => rw [List.foldl_cons, ih]; simp [totalsStep]; ring

/-- The `SUM(cached_tokens)` column of the `GetTotals` scan. -/
theorem totals_foldl_cached (l : List StoredRow) (acc : TotalsAcc) :
    (l.foldl totalsStep acc).cached =
      acc.cached + (l.map (fun row => row.cached_tokens)).sum := by
  induction l generalizing acc with
  | nil => simp
  | cons r l ih => rw [List.foldl_cons, ih]; simp [totalsStep]; ring

/-- The failed-requests column of the `GetTotals` scan counts rows with a
raised failed flag. -/
theorem totals_foldl_failed (l : List StoredRow) (acc : TotalsAcc) :
    (l.foldl totalsStep acc).failedCount =
      acc.failedCount + (l.countP (fun row => row.failed) : Int) := by
  induction l generalizing acc with
  | nil => simp
  | cons r l ih =>
      rw [List.foldl_cons, ih]
      simp [totalsStep, List.countP_cons]
      by_cases h : r.failed <;> simp [h] <;> ring

/-- The success-requests column of the `GetTotals` scan counts rows with a
lowered failed flag. -/
theorem totals_foldl_success (l : List StoredRow) (acc : TotalsAcc) :
    (l.foldl totalsStep acc).successCount =
      acc.successCount + (l.countP (fun row => !row.failed) : Int) := by
  induction l generalizing acc with
  | nil => simp
  | cons r l ih =>
      rw [List.foldl_cons, ih]
      simp [totalsStep, List.countP_cons]
      by_cases h : r.failed <;> simp [h] <;> ring

/-- The latency-sum column feeding `AVG(latency_ms)` in the `GetTotals`
scan. -/
theorem totals_foldl_latSum (l : List StoredRow) (acc : TotalsAcc) :
    (l.foldl totalsStep acc).latSum =
      acc.latSum + (((l.map (fun row => row.latency_ms)).sum : Int) : ℚ) := by
  induction l generalizing acc with
  | nil => simp
  | cons r l ih => rw [List.foldl_cons, ih]; simp [totalsStep]; ring

/-- Claim C4: over exactly the rows whose event timestamp lies in the
inclusive window `[from, to]`, `GetTotals` returns the record count, the sum
of each token category, the failed and succeeded counts, and the mean
latency (0 over an empty window); the last conjunct pins the scanned row
set to the inclusive window. -/
theorem getTotals_spec (s : SQLiteStorage) (fromT toT : GoTime) :
    (s.GetTotals fromT toT).Requests =
      ((s.rows.filter (inWindow fromT.format toT.format)).length : Int) ∧
    (s.GetTotals fromT toT).Tokens =
      ((s.rows.filter (inWindow fromT.format toT.format)).map
        (fun row => row.total_tokens)).sum ∧
    (s.GetTotals fromT toT).PromptTokens =
      ((s.rows.filter (inWindow fromT.format toT.format)).map
        (fun row => row.prompt_tokens)).sum ∧
    (s.GetTotals fromT toT).CompletionTokens =
      ((s.rows.filter (inWindow fromT.format toT.format)).map
        (fun row => row.completion_tokens)).sum ∧
    (s.GetTotals fromT toT).ReasoningTokens =
      ((s.rows.filter (inWindow fromT.format toT.format)).map
        (fun row => row.reasoning_tokens)).sum ∧
    (s.GetTotals fromT toT).CachedTokens =
      ((s.rows.filter (inWindow fromT.format toT.format)).map
        (fun row => row.cached_tokens)).sum ∧
    (s.GetTotals fromT toT).FailedRequests =
      ((s.rows.filter (inWindow fromT.format toT.format)).countP
        (fun row => row.failed) : Int) ∧
    (s.GetTotals fromT toT).SuccessRequests =
      ((s.rows.filter (inWindow fromT.format toT.format)).countP
        (fun row => !row.failed) : Int) ∧
    (s.GetTotals fromT toT).AvgLatencyMs =
      (if (s.rows.filter (inWindow fromT.format toT.format)).length = 0 then 0
       else ((((s.rows.filter (inWindow fromT.format toT.format)).map
           (fun row => row.latency_ms)).sum : Int) : ℚ) /
         ((s.rows.filter (inWindow fromT.format toT.format)).length : ℚ)) ∧
    (∀ row, row ∈ s.rows.filter (inWindow fromT.format toT.format) ↔
      row ∈ s.rows ∧ DateTime.Le fromT.format row.timestamp ∧
        DateTime.Le row.timestamp toT.format) := by
  unfold SQLiteStorage.GetTotals
  simp only []
  refine ⟨?_, ?_, ?_, ?_, ?_, ?_, ?_, ?_, ?_, ?_⟩
  · rw [totals_foldl_count]; exact zero_add _
  · rw [totals_foldl_tok]; exact zero_add _
  · rw [totals_foldl_prompt]; exact zero_add _
  · rw [totals_foldl_completion]; exact zero_add _
  · rw [totals_foldl_reasoning]; exact zero_add _
  · rw [totals_foldl_cached]; exact zero_add _
  · rw [totals_foldl_failed]; exact zero_add _
  · rw [totals_foldl_success]; exact zero_add _
  · rw [totals_foldl_latSum, totals_foldl_count]
    have hzero : ∀ n : Nat, ((0 : Int) + (n : Int) = 0 ↔ n = 0) := by
      intro n; omega
    by_cases h : (s.rows.filter (inWindow fromT.format toT.format)).length = 0
    · simp [h]
    · rw [if_neg (by simpa using (hzero _).not.mpr h), if_neg h]
      push_cast
      ring
  · intro row
    rw [List.mem_filter]
    unfold inWindow
    simp

/-- Claim C4, witnessed on §8's concrete example: records with token sums
150/300/75 and failed flags false/false/true give requests=3, tokens=525,
failedRequests=1, successRequests=2. -/
theorem getTotals_spec_witness :
    (c4store.GetTotals winFrom winTo).Requests = 3 ∧
    (c4store.GetTotals winFrom winTo).Tokens = 525 ∧
    (c4store.GetTotals winFrom winTo).FailedRequests = 1 ∧
    (c4store.GetTotals winFrom winTo).SuccessRequests = 2 := by
  obtain ⟨h1, h2, _, _, _, _, h7, h8, _⟩ := getTotals_spec c4store winFrom winTo
  rw [h1, h2, h7, h8]
  refine ⟨by decide, by decide, by decide, by decide⟩

/-- The `COUNT(*)` column of a `GROUP BY` group scan. -/
theorem group_foldl_count (l : List StoredRow) (acc : GroupAcc) :
    (l.foldl groupStep acc).count = acc.count + l.length := by
  induction l generalizing acc with
  | nil => simp
  | cons r l ih => rw [List.foldl_cons, ih]; simp [groupStep]; ring

/-- The `SUM(total_tokens)` column of a `GROUP BY` group scan. -/
theorem group_foldl_tok (l : List StoredRow) (acc : GroupAcc) :
    (l.foldl groupStep acc).tok =
      acc.tok + (l.map (fun row => row.total_tokens)).sum := by
  induction l generalizing acc with
  | nil => simp
  | cons r l ih => rw [List.foldl_cons, ih]; simp [groupStep]; ring

/-- The `SUM(prompt_tokens)` column of a `GROUP BY` group scan. -/
theorem group_foldl_prompt (l : List StoredRow) (acc : GroupAcc) :
    (l.foldl groupStep acc).prompt =
      acc.prompt + (l.map (fun row => row.prompt_tokens)).sum := by
  induction l generalizing acc with
  | nil => simp
  | cons r l ih => rw [List.foldl_cons, ih]; simp [groupStep]; ring

/-- The `SUM(completion_tokens)` column of a `GROUP BY` group scan. -/
theorem group_foldl_completion (l : List StoredRow) (acc : GroupAcc) :
    (l.foldl groupStep acc).completion =
      acc.completion + (l.map (fun row => row.completion_tokens)).sum := by
  induction l generalizing acc with
  | nil => simp
  | cons r l ih => rw [List.foldl_cons, ih]; simp [groupStep]; ring

/-- The failed-count column of a `GROUP BY` group scan. -/
theorem group_foldl_failed (l : List StoredRow) (acc : GroupAcc) :
    (l.foldl groupStep acc).failedCount =
      acc.failedCount + (l.countP (fun row => row.failed) : Int) := by
  induction l generalizing acc with
  | nil => simp
  | cons r l ih =>
      rw [List.foldl_cons, ih]
      simp [groupStep, List.countP_cons]
      by_cases h : r.failed <;> simp [h] <;> ring

/-- The latency-sum column feeding `AVG(latency_ms)` in a `GROUP BY` group
scan. -/
theorem group_foldl_latSum (l : List StoredRow) (acc : GroupAcc) :
    (l.foldl groupStep acc).latSum =
      acc.latSum + (((l.map (fun row => row.latency_ms)).sum : Int) : ℚ) := by
  induction l generalizing acc with
  | nil => simp
  | cons r l ih => rw [List.foldl_cons, ih]; simp [groupStep]; ring

/-- The group scan of `GetByModel` computes exactly the aggregate row the
spec describes for that model's group. -/
theorem modelAggRow_eq_spec (w : List StoredRow) (m : String) :
    modelAggRow m (w.filter (fun row => row.model = m)) =
      modelMetricsSpec w m := by
  unfold modelAggRow modelMetricsSpec
  simp only [ModelMetrics.mk.injEq]
  refine ⟨trivial, ?_, ?_, ?_, ?_, ?_, ?_⟩
  · rw [group_foldl_count]; exact zero_add _
  · rw [group_foldl_tok]; exact zero_add _
  · rw [group_foldl_prompt]; exact zero_add _
  · rw [group_foldl_completion]; exact zero_add _
  · rw [group_foldl_latSum, group_foldl_count]
    simp only [zero_add]
    by_cases h : (w.filter (fun row => row.model = m)).length = 0
    · simp [h]
    · simp only [Nat.cast_eq_zero, h, if_false]
      push_cast
      ring
  · rw [group_foldl_failed]; exact zero_add _

/-- Claim C6: `GetByModel` returns, up to the `ORDER BY total_tokens DESC`
arrangement it is sorted by, one aggregate row per distinct model among the
window's rows, each row carrying that model's request count, token sums,
mean latency and failed count. -/
theorem getByModel_spec (s : SQLiteStorage) (fromT toT : GoTime) :
    (s.GetByModel fromT toT).Sorted tokensDesc ∧
    (s.GetByModel fromT toT).Perm
      ((((s.rows.filter (inWindow fromT.format toT.format)).map
          (fun row => row.model)).dedup).map
        (modelMetricsSpec (s.rows.filter (inWindow fromT.format toT.format)))) := by
  unfold SQLiteStorage.GetByModel
  constructor
  · exact List.sorted_insertionSort tokensDesc _
  · refine (List.perm_insertionSort tokensDesc _).trans ?_
    have hmap :
        (((s.rows.filter (inWindow fromT.format toT.format)).map
            (fun row => row.model)).dedup).map
          (fun m => modelAggRow m
            ((s.rows.filter (inWindow fromT.format toT.format)).filter
              (fun row => row.model = m))) =
        (((s.rows.filter (inWindow fromT.format toT.format)).map
            (fun row => row.model)).dedup).map
          (modelMetricsSpec (s.rows.filter (inWindow fromT.format toT.format))) :=
      List.map_congr_left (fun m _ => modelAggRow_eq_spec _ m)
    rw [hmap]

/-- Claim C6, witnessed on §8's concrete example: grouping records
gpt-4:100, gpt-4:200, claude:150 yields a gpt-4 row with requests=2 and
tokens=300, and the result is ordered by total tokens descending. -/
theorem getByModel_spec_witness :
    (c6store.GetByModel winFrom winTo).Sorted tokensDesc ∧
    ∃ mm ∈ c6store.GetByModel winFrom winTo,
      mm.Model = "gpt-4" ∧ mm.Requests = 2 ∧ mm.Tokens = 300 := by
  obtain ⟨hs, hp⟩ := getByModel_spec c6store winFrom winTo
  refine ⟨hs, ?_⟩
  exact ⟨modelMetricsSpec
    (c6store.rows.filter (inWindow winFrom.format winTo.format)) "gpt-4",
    hp.mem_iff.mpr (List.mem_map_of_mem _ (by decide)),
    by decide, by decide, by decide⟩

/-- Every record `Query` returns is the scan of a stored row that matches
the assembled `WHERE` clause. -/
theorem mem_Query {s : SQLiteStorage} {f : QueryFilter} {r : UsageRecord}
    (h : r ∈ s.Query f) :
    ∃ row, row ∈ s.rows ∧ rowMatches f row = true ∧ r = recordOfRow row := by
  unfold SQLiteStorage.Query at h
  simp only [List.mem_map] at h
  obtain ⟨row, hrow, hr⟩ := h
  have hsorted : row ∈ (s.rows.filter (rowMatches f)).insertionSort tsDesc := by
    by_cases hl : f.Limit > 0
    · rw [if_pos hl] at hrow
      exact List.take_subset _ _ hrow
    · rwa [if_neg hl] at hrow
  have hfil : row ∈ s.rows.filter (rowMatches f) :=
    (List.perm_insertionSort tsDesc _).mem_iff.mp hsorted
  obtain ⟨hmem, hmatch⟩ := List.mem_filter.mp hfil
  exact ⟨row, hmem, hmatch, hr.symm⟩

/-- Unpacking the assembled `WHERE` clause: a matching row satisfies every
conjunct the set filter fields contribute. -/
theorem rowMatches_spec (f : QueryFilter) (row : StoredRow)
    (h : rowMatches f row = true) :
    (∀ t, f.From = some t → ¬ t.isZero →
      DateTime.Le t.format row.timestamp) ∧
    (∀ t, f.To = some t → ¬ t.isZero →
      DateTime.Le row.timestamp t.format) ∧
    (f.Provider ≠ "" → row.provider = f.Provider) ∧
    (f.Model ≠ "" → row.model = f.Model) ∧
    (f.APIKey ≠ "" → row.api_key = f.APIKey) ∧
    (∀ b, f.Failed = some b → row.failed = b) := by
  unfold rowMatches at h
  simp only [Bool.and_eq_true] at h
  obtain ⟨⟨⟨⟨⟨h1, h2⟩, h3⟩, h4⟩, h5⟩, h6⟩ := h
  refine ⟨?_, ?_, ?_, ?_, ?_, ?_⟩
  · intro t ht hz
    rw [ht] at h1
    simp only [hz, if_true, not_false_iff] at h1
    simpa using h1
  · intro t ht hz
    rw [ht] at h2
    simp only [hz, if_true, not_false_iff] at h2
    simpa using h2
  · intro hp
    rw [if_pos hp] at h3
    simpa using h3
  · intro hm
    rw [if_pos hm] at h4
    simpa using h4
  · intro hk
    rw [if_pos hk] at h5
    simpa using h5
  · intro b hb
    rw [hb] at h6
    simpa using h6

/-- Claim C5: `Query` returns exactly the persisted records matching every
set field of the filter — each returned record satisfies the time window,
model, provider, API key and failed-flag conditions that are set — ordered
newest-first by event timestamp, truncated to the result cap when a
positive `Limit` is given.  The last conjunct pins the whole result: there
is a newest-first arrangement `L` of the scans of **all** matching rows,
and the result is `L` truncated to `Limit` when `Limit > 0` and all of `L`
otherwise — so with a positive limit the result is exactly the newest
`Limit` matching records, never a selection that drops matches. -/
theorem query_spec (s : SQLiteStorage) (f : QueryFilter) :
    (∀ r ∈ s.Query f,
      (∀ t, f.From = some t → ¬ t.isZero →
        DateTime.Le t.format r.Timestamp.wall) ∧
      (∀ t, f.To = some t → ¬ t.isZero →
        DateTime.Le r.Timestamp.wall t.format) ∧
      (f.Provider ≠ "" → r.Provider = f.Provider) ∧
      (f.Model ≠ "" → r.Model = f.Model) ∧
      (f.APIKey ≠ "" → r.APIKey = f.APIKey) ∧
      (∀ b, f.Failed = some b → r.Failed = b)) ∧
    (s.Query f).Sorted
      (fun a b => DateTime.Le b.Timestamp.wall a.Timestamp.wall) ∧
    (f.Limit > 0 → (s.Query f).length ≤ f.Limit.toNat) ∧
    (∃ L : List UsageRecord,
      L.Perm ((s.rows.filter (rowMatches f)).map recordOfRow) ∧
      L.Sorted (fun a b => DateTime.Le b.Timestamp.wall a.Timestamp.wall) ∧
      s.Query f = if f.Limit > 0 then L.take f.Limit.toNat else L) := by
  have hsorted : ((s.rows.filter (rowMatches f)).insertionSort tsDesc).Sorted
      tsDesc := List.sorted_insertionSort tsDesc _
  refine ⟨?_, ?_, ?_, ?_⟩
  · intro r hr
    obtain ⟨row, _, hmatch, hr_eq⟩ := mem_Query hr
    subst hr_eq
    exact rowMatches_spec f row hmatch
  · unfold SQLiteStorage.Query
    have hlim : (if f.Limit > 0 then
        ((s.rows.filter (rowMatches f)).insertionSort tsDesc).take f.Limit.toNat
        else (s.rows.filter (rowMatches f)).insertionSort tsDesc).Sorted
          tsDesc := by
      by_cases hl : f.Limit > 0
      · rw [if_pos hl]
        exact hsorted.sublist (List.take_sublist _ _)
      · rwa [if_neg hl]
    exact List.pairwise_map.mpr hlim
  · intro hl
    unfold SQLiteStorage.Query
    simp only [if_pos hl, List.length_map]
    exact List.length_take_le _ _
  · refine ⟨((s.rows.filter (rowMatches f)).insertionSort tsDesc).map
      recordOfRow, ?_, ?_, ?_⟩
    · exact (List.perm_insertionSort tsDesc _).map recordOfRow
    · exact List.pairwise_map.mpr hsorted
    · unfold SQLiteStorage.Query
      by_cases hl : f.Limit > 0
      · simp only [if_pos hl]
        exact List.map_take recordOfRow _ _
      · simp only [if_neg hl]

/-- Claim C5, witnessed on §8's concrete example: querying the mixed-model
store with `model="gpt-4"` returns only records with `Model = "gpt-4"` and
both matching records; and with `Limit := 1` exactly one record — the
1-prefix of a newest-first arrangement of all the matches. -/
theorem query_spec_witness :
    (∀ r ∈ c4store.Query { Model := "gpt-4" }, r.Model = "gpt-4") ∧
    (c4store.Query { Model := "gpt-4" }).length = 2 ∧
    (c4store.Query { Model := "gpt-4", Limit := 1 }).length = 1 ∧
    (∃ L : List UsageRecord,
      L.Perm ((c4store.rows.filter
        (rowMatches { Model := "gpt-4", Limit := 1 })).map recordOfRow) ∧
      L.Sorted (fun a b => DateTime.Le b.Timestamp.wall a.Timestamp.wall) ∧
      c4store.Query { Model := "gpt-4", Limit := 1 } =
        if ({ Model := "gpt-4", Limit := 1 } : QueryFilter).Limit > 0 then
          L.take ({ Model := "gpt-4", Limit := 1 } : QueryFilter).Limit.toNat
        else L) := by
  obtain ⟨hfields, _, _, _⟩ := query_spec c4store { Model := "gpt-4" }
  obtain ⟨_, _, _, hexact⟩ := query_spec c4store { Model := "gpt-4", Limit := 1 }
  refine ⟨?_, by decide, by decide, hexact⟩
  intro r hr
  exact (hfields r hr).2.2.2.1 (by decide)

/-- Claim C10: event timestamps are persisted at whole-second precision —
`Insert` appends the row with the timestamp rendered by
`Format("2006-01-02 15:04:05")`, i.e. the wall clock truncated to the
second; reading a stored row back yields the record with that wall clock
and with the nanoseconds and zone information gone (zero nanoseconds, UTC);
and every record `Query` returns is such a row scan. -/
theorem timestamp_roundtrip (s : SQLiteStorage) (r : UsageRecord) :
    (s.Insert r).rows = s.rows ++ [rowOfRecord r] ∧
    (rowOfRecord r).timestamp = r.Timestamp.wall ∧
    recordOfRow (rowOfRecord r) =
      { r with Timestamp := ⟨r.Timestamp.wall, 0, 0⟩ } ∧
    (∀ (s' : SQLiteStorage) (f : QueryFilter), ∀ q ∈ s'.Query f,
      ∃ row ∈ s'.rows, q = recordOfRow row ∧
        q.Timestamp = ⟨row.timestamp, 0, 0⟩) := by
  refine ⟨rfl, rfl, rfl, ?_⟩
  intro s' f q hq
  obtain ⟨row, hmem, _, hq_eq⟩ := mem_Query hq
  exact ⟨row, hmem, hq_eq, by rw [hq_eq]; rfl⟩

/-- The record of C10's witness: a submitted timestamp carrying sub-second
precision (123456789 ns) and a non-UTC zone (offset +120 minutes). -/
def c10rec : UsageRecord :=
  sampleRecord ⟨⟨2025, 5, 6, 7, 8, 9⟩, 123456789, 120⟩ "gpt-4" 5 false 10

/-- Claim C10, witnessed on a concrete record with sub-second precision and
a non-UTC zone: the read-back timestamp is the wall clock truncated to the
second, with zero nanoseconds and UTC offset. -/
theorem timestamp_roundtrip_witness :
    (recordOfRow (rowOfRecord c10rec)).Timestamp =
      ⟨⟨2025, 5, 6, 7, 8, 9⟩, 0, 0⟩ ∧
    ((⟨[]⟩ : SQLiteStorage).Insert c10rec).rows = [rowOfRecord c10rec] := by
  obtain ⟨h1, _, h3, _⟩ := timestamp_roundtrip ⟨[]⟩ c10rec
  exact ⟨by rw [h3]; decide, by rw [h1]; rfl⟩

/-- Claim C1 (failing input): the week-granularity encode/decode round trip
of `GetTimeseries` misaligns the bucket to the wrong calendar date.  The
single record of `c1store` is stamped 2025-01-20 00:00:00, a Monday
(`mondayWeekday = 0`), so under the Monday-first `%W` convention used by
the encoding it is the calendar start of its own week, and its bucket key
is `2025-W03`; yet the decode `time.Parse("2006-W02", ...)` consumes the
week number as a day of month and returns January 3, 2025 — not the week's
start date 2025-01-20. -/
theorem week_bucket_key_misparsed :
    weekKey ⟨2025, 1, 20, 0, 0, 0⟩ = (2025, 3) ∧
    mondayWeekday ⟨2025, 1, 20, 0, 0, 0⟩ = 0 ∧
    (c1store.GetTimeseriesWeek winFrom winTo).map
      (fun p => p.BucketStart) = [⟨⟨2025, 1, 3, 0, 0, 0⟩, 0, 0⟩] ∧
    (⟨⟨2025, 1, 3, 0, 0, 0⟩, 0, 0⟩ : GoTime) ≠
      ⟨⟨2025, 1, 20, 0, 0, 0⟩, 0, 0⟩ := by
  refine ⟨by decide, by decide, ?_, by decide⟩
  decide

end CLIProxy
